import Mathlib

/-!
Shallow embedding of the grammar-interpreter core of the repository
(`src/textmate_grammar/parser.py`) and proofs about the frozen claims.

The external collaborators (the `ContentHandler` text buffer and the
Oniguruma regex primitive) are not part of `src/`; following the spec
(sections 1 and 4.1) they are treated as interfaces: a `Handler` record of
position arithmetic and read operations, and black-box search functions
stored in each parser's configuration.  Every parser algorithm below is a
direct transcription of the corresponding `_parse` / `initialize_repository`
body of `src/textmate_grammar/parser.py`; line numbers in comments refer to
that file.  Logging calls are modelled as a warning counter.
-/

namespace TMG

/-- A buffer position `(line, column)`; Python compares such tuples
lexicographically. -/
abbrev POS := Nat × Nat

/-- Lexicographic strict order on positions (Python `<` on 2-tuples). -/
def posLt (p q : POS) : Bool :=
  Nat.blt p.1 q.1 || (p.1 == q.1 && Nat.blt p.2 q.2)

/-- Lexicographic order on positions (Python `<=` on 2-tuples). -/
def posLe (p q : POS) : Bool :=
  posLt p q || p == q

/-- Output elements (`ContentElement` / `ContentBlockElement` from
`elements.py`, spec section 3); the opaque grammar pointer is dropped. -/
inductive Elem where
  | content (token : String) (text : String) (indices : List POS) (captures : List Elem)
  | block (token : String) (text : String) (indices : List POS)
      (captures beginEls endEls : List Elem)

/-- The `ContentHandler` interface used by the parsers (spec section 4.1;
`handler.py` is not part of `src/`).  `readLength1 p` models
`handler.read_length(p, 1, skip_newline=False)`. -/
structure Handler where
  nextP : POS → POS
  prevP : POS → POS
  readLength1 : POS → String
  readLine : POS → String
  readPos : POS → POS → String
  rangeP : POS → POS → List POS
  lineLengths : Nat → Nat

/-- Python `str.isspace()`: non-empty and all whitespace. -/
def pyIsSpace (s : String) : Bool :=
  s.length != 0 && s.toList.all Char.isWhitespace

/-- Python truthiness of a string. -/
def pyTruthy (s : String) : Bool :=
  s.length != 0

/-- Python truthiness of `self.token` when it may be `None`
(`BeginEndParser` stores `grammar.get("name", None)`). -/
def optTruthy (t : Option String) : Bool :=
  match t with
  | some s => s.length != 0
  | none => false

/-! ### A concrete handler over a list of lines, for witnesses.

Each line is conceptually followed by a newline character, as the upstream
handler appends (`"Add newline as tmlanguage expects it"`). -/

/-- Length of line `i` (without the newline). -/
def lineLenL (ls : List String) (i : Nat) : Nat :=
  ((ls.get? i).map String.length).getD 0

/-- The single character at position `p`: a line character, `"\n"` at the
end of a line, `""` outside the buffer. -/
def charAtL (ls : List String) (p : POS) : String :=
  match ls.get? p.1 with
  | none => ""
  | some s =>
    match s.toList.get? p.2 with
    | some c => String.singleton c
    | none => if p.2 == s.length then "\n" else ""

/-- Character offset of position `p` in the newline-joined buffer. -/
def offL (ls : List String) (p : POS) : Nat :=
  ((ls.take p.1).foldl (fun a s => a + s.length + 1) 0) + p.2

/-- Verbatim text between two positions. -/
def readPosL (ls : List String) (p q : POS) : String :=
  String.mk (((String.join (ls.map (fun s => s ++ "\n"))).toList.drop (offL ls p)).take
    (offL ls q - offL ls p))

/-- Remainder of the line at `p`, newline included. -/
def readLineL (ls : List String) (p : POS) : String :=
  match ls.get? p.1 with
  | none => ""
  | some s => String.mk (s.toList.drop p.2) ++ "\n"

/-- Step one character forward, crossing line boundaries. -/
def nextL (ls : List String) (p : POS) : POS :=
  if Nat.blt p.2 (lineLenL ls p.1) then (p.1, p.2 + 1) else (p.1 + 1, 0)

/-- Step one character backward, crossing line boundaries. -/
def prevL (ls : List String) (p : POS) : POS :=
  if Nat.blt 0 p.2 then (p.1, p.2 - 1)
  else if Nat.blt 0 p.1 then (p.1 - 1, lineLenL ls (p.1 - 1))
  else (0, 0)

/-- A concrete `Handler` over a list of lines; the `rangeP` field returns
the two bracketing positions (its internal shape is never inspected by the
parsers). -/
def mkLines (ls : List String) : Handler where
  nextP := nextL ls
  prevP := prevL ls
  readLength1 := charAtL ls
  readLine := readLineL ls
  readPos := readPosL ls
  rangeP := fun p q => [p, q]
  lineLengths := lineLenL ls

/-! ### TokenParser (`TokenParser._parse`, parser.py lines 124-144) -/

/-- The dynamically-typed value assigned to `handler.anchor`.  Line 142 of
parser.py writes `handler.anchor = boundary[1]`, an integer column, while
the handler contract (spec section 4.1) declares `anchor` a POS. -/
inductive PyAnchor where
  | int (n : Nat)
  | pos (p : POS)
deriving DecidableEq

/-- Configuration of a `TokenParser`: its token and the handler. -/
structure TokenCfg where
  token : String
  h : Handler

/-- `TokenParser._parse` (lines 124-144).  The mutable `handler.anchor`
assignment is returned as the last tuple component. -/
def TokenParser_parse (cfg : TokenCfg) (starting boundary : POS) :
    Bool × List Elem × (POS × POS) × PyAnchor :=
  let content := cfg.h.readPos starting boundary
  let elements := [Elem.content cfg.token content (cfg.h.rangeP starting boundary) []]
  (true, elements, (starting, boundary), PyAnchor.int boundary.2)

/-! ### MatchParser (`MatchParser._parse`, parser.py lines 174-213) -/

/-- Configuration of a `MatchParser`.  `search` is the black-box
`match_and_capture` over the compiled `exp_match` (handler regex search plus
capture resolution): it yields the span, the matched text (`match.group()`)
and the capture child elements, or `none` when the regex does not match
between `starting` and `boundary`. -/
structure MatchCfg where
  token : String
  h : Handler
  search : POS → Option POS → Bool → Option ((POS × POS) × String × List Elem)

/-- `MatchParser._parse` (lines 174-213). -/
def MatchParser_parse (cfg : MatchCfg) (starting : POS) (boundary : Option POS)
    (allow_leading_all : Bool) : Bool × List Elem × Option (POS × POS) :=
  match cfg.search starting boundary allow_leading_all with
  | none => (false, [], none)
  | some (span, content, captures) =>
    if pyTruthy cfg.token then
      (true, [Elem.content cfg.token content (cfg.h.rangeP span.1 span.2) captures], some span)
    else
      (true, captures, some span)

/-! ### PatternsParser (`PatternsParser._parse`, parser.py lines 238-306) -/

/-- A child parser as seen from a pattern list: its Python object identity
(`pid`), the `disabled` / `anchored` flags, whether it is the very parser
running the surrounding begin/end loop (`isSelf`, for the
`parser == self` test of lines 400 and 422), and its `_parse` entry point
at a position with an `allow_leading_all` flag (the boundary is fixed for
one surrounding call). -/
structure PParser where
  pid : Nat
  disabled : Bool
  anchored : Bool
  isSelf : Bool
  parse : POS → Bool → Option (List Elem × (POS × POS))

/-- First child parser to succeed, in declaration order (the
`for parser in patterns: ... if parsed: break` loops). -/
def firstSuccess (ps : List PParser) (current : POS) (allow_leading_all : Bool) :
    Option (PParser × List Elem × (POS × POS)) :=
  match ps with
  | [] => none
  | p :: rest =>
    match p.parse current allow_leading_all with
    | some (els, span) => some (p, els, span)
    | none => firstSuccess rest current allow_leading_all

/-- Configuration of a `PatternsParser`: its own patterns and the injected
patterns. -/
structure PatternsCfg where
  patterns : List PParser
  injected : List PParser

/-- The candidate search set (lines 254-258): the non-disabled own patterns,
plus `injected_patterns` when `find_one or injections`. -/
def PatternsParser_searchSet (cfg : PatternsCfg) (find_one injections : Bool) :
    List PParser :=
  let patterns := cfg.patterns.filter (fun p => !p.disabled)
  if find_one || injections then patterns ++ cfg.injected else patterns

/-- Outcome of one iteration of the `while current < boundary` loop of
`PatternsParser._parse`: an immediate `find_one` return, another round, or
a break out of the loop (with whether the stall warning of lines 300-304
fired). -/
inductive PStep where
  | foundOne (els : List Elem) (span : POS × POS)
  | cont (current : POS) (elements : List Elem)
  | brk (current : POS) (elements : List Elem) (warned : Bool)

/-- One iteration of the pattern-search loop (lines 262-304): a first pass
over the patterns with the caller's `allow_leading_all`, a second pass with
`allow_leading_all=True` when the first found nothing (lines 283-296), and
the stall check against `starting` (lines 300-304). -/
def PatternsParser_step (patterns : List PParser) (find_one allow_leading_all : Bool)
    (starting current : POS) (elements : List Elem) : PStep :=
  match firstSuccess patterns current allow_leading_all with
  | some (_, captures, span) =>
    if find_one then .foundOne captures span
    else
      let elements := elements ++ captures
      let current := span.2
      if current == starting then .brk current elements true
      else .cont current elements
  | none =>
    if find_one then .brk current elements false
    else
      let second_try_patterns := if !allow_leading_all then patterns else []
      match firstSuccess second_try_patterns current true with
      | some (_, captures, span) =>
        if find_one then .foundOne captures span
        else
          let elements := elements ++ captures
          let current := span.2
          if current == starting then .brk current elements true
          else .cont current elements
      | none => .brk current elements false

/-- Result of `PatternsParser._parse`:  `one` is the `find_one` early
return (line 276), `multi` the final `bool(elements), elements,
(starting, current)` of line 306, with the number of emitted warnings. -/
inductive PResult where
  | one (els : List Elem) (span : POS × POS)
  | multi (parsed : Bool) (elements : List Elem) (span : POS × POS) (warns : Nat)

/-- The `while current < boundary` loop, with fuel (`none` = the loop is
still running after `fuel` rounds; the Python loop has no global bound). -/
def PatternsParser_loop (patterns : List PParser) (find_one allow_leading_all : Bool)
    (starting boundary : POS) : Nat → POS → List Elem → Nat → Option PResult
  | 0, _, _, _ => none
  | fuel + 1, current, elements, warns =>
    if posLt current boundary then
      match PatternsParser_step patterns find_one allow_leading_all starting current elements with
      | .foundOne els span => some (.one els span)
      | .cont current₂ elements₂ =>
        PatternsParser_loop patterns find_one allow_leading_all starting boundary
          fuel current₂ elements₂ warns
      | .brk current₂ elements₂ warned =>
        some (.multi (!elements₂.isEmpty) elements₂ (starting, current₂)
          (warns + if warned then 1 else 0))
    else some (.multi (!elements.isEmpty) elements (starting, current) warns)

/-- `PatternsParser._parse` (lines 238-306); the `boundary` argument is the
already-resolved boundary (a `None` boundary defaults to the end of the
buffer at lines 251-252 before the loop starts). -/
def PatternsParser_parse (cfg : PatternsCfg) (find_one injections allow_leading_all : Bool)
    (starting boundary : POS) (fuel : Nat) : Option PResult :=
  PatternsParser_loop (PatternsParser_searchSet cfg find_one injections)
    find_one allow_leading_all starting boundary fuel starting [] 0

/-! ### BeginEndParser (`BeginEndParser._parse`, parser.py lines 352-583) -/

/-- Configuration of a `BeginEndParser`.  `token` is `contentName` when
present, else `grammar.get("name", None)`; `searchBegin` and `searchEnd`
are the black-box `match_and_capture` over `exp_begin` / `exp_end`
(the boundary, constant during one call, is fixed inside them;
`cfg.boundary` is its resolved value used by the loop condition). -/
structure BECfg where
  token : Option String
  between_content : Bool
  apply_end_pattern_last : Bool
  patterns : List PParser
  searchBegin : POS → Bool → Option ((POS × POS) × List Elem)
  searchEnd : POS → Bool → Option ((POS × POS) × List Elem)
  boundary : POS
  h : Handler

/-- Mutable state of the arbitration loop: the cursor, the accumulated
`mid_elements`, the remaining candidate patterns, the `first_run` flag, the
last value of the `end_elements` variable, and the warning count. -/
structure BEState where
  current : POS
  mid : List Elem
  pats : List PParser
  first_run : Bool
  lastEndElems : List Elem
  warns : Nat

/-- Steps A-C of one iteration (lines 394-434): try the inner patterns and
the end regex with no leading whitespace; when neither matched, retry both
allowing leading characters (lines 415-434). -/
def BE_scan (cfg : BECfg) (pats : List PParser) (current : POS) :
    Option (PParser × List Elem × (POS × POS)) × Option ((POS × POS) × List Elem) :=
  let found := firstSuccess pats current false
  let endRes := cfg.searchEnd current false
  match found, endRes with
  | none, none => (firstSuccess pats current true, cfg.searchEnd current true)
  | _, _ => (found, endRes)

/-- Tail of every non-breaking iteration (lines 550-556): advance one
position when the iteration-local `apply_end_pattern_last` flag is set, and
after the first round drop the patterns anchored to the begin match. -/
def BE_tail (cfg : BECfg) (st : BEState) (apply_local : Bool) : BEState :=
  let st := if apply_local then { st with current := cfg.h.nextP st.current } else st
  if st.first_run then
    { st with pats := st.pats.filter (fun p => !p.anchored), first_run := false }
  else st

/-- Outcome of one iteration: `brk` carries the values live at a `break`
(the closing position, the accepted `end_span` and `end_elements`, the
`mid_elements` and the warning count); `cont` the state for the next
round. -/
inductive BEStep where
  | brk (closing : POS) (endSpan : POS × POS) (endElems mid : List Elem) (warns : Nat)
  | cont (st : BEState)

/-- One iteration of the arbitration loop (lines 387-556). -/
def BE_step (cfg : BECfg) (st : BEState) : BEStep :=
  let scan := BE_scan cfg st.pats st.current
  let apply_local :=
    match scan.1 with
    | some (p, _, _) => p.isSelf
    | none => false
  let endElems :=
    match scan.2 with
    | some (_, es) => es
    | none => []
  match scan.2 with
  | some (end_span, _) =>
    match scan.1 with
    | some (_, capture_elements, capture_span) =>
      -- lines 437-501: both an inner capture and an end match were found
      let capture_before_end := cfg.h.prevP capture_span.2
      let pattern_at_end :=
        if cfg.h.readLength1 capture_before_end == "\n" then
          end_span.2 == capture_before_end || end_span.2 == capture_span.2
        else end_span.2 == capture_span.2
      let end_before_pattern := posLe end_span.1 capture_span.1
      let empty_span_end := end_span.2 == end_span.1
      if pattern_at_end && (end_before_pattern || empty_span_end) then
        if empty_span_end then
          .brk (if cfg.between_content then end_span.1 else end_span.2) end_span endElems
            (st.mid ++ capture_elements) st.warns
        else if !cfg.apply_end_pattern_last && !apply_local then
          .brk (if cfg.between_content then end_span.1 else end_span.2) end_span endElems
            st.mid st.warns
        else
          .cont (BE_tail cfg
            { st with mid := st.mid ++ capture_elements, current := capture_span.2,
                      lastEndElems := endElems } apply_local)
      else if posLt capture_span.1 end_span.1 then
        .cont (BE_tail cfg
          { st with mid := st.mid ++ capture_elements, current := capture_span.2,
                    lastEndElems := endElems } apply_local)
      else
        .brk (if cfg.between_content then end_span.1 else end_span.2) end_span endElems
          st.mid st.warns
    | none =>
      -- lines 502-506: only the end pattern matched
      .brk (if cfg.between_content then end_span.1 else end_span.2) end_span endElems
        st.mid st.warns
  | none =>
    match scan.1 with
    | some (_, capture_elements, capture_span) =>
      -- lines 508-539: only a capture matched
      let st₁ := { st with mid := st.mid ++ capture_elements, lastEndElems := endElems }
      if cfg.h.readLength1 capture_span.2 == "\n" then
        -- lines 512-536: the next character is a newline; probe for an end
        -- match directly after the capture
        let probe := cfg.searchEnd capture_span.2 false
        let current₂ :=
          match probe with
          | some (probe_span, _) =>
            if posLe probe_span.2 (cfg.h.nextP capture_span.2) then capture_span.2
            else cfg.h.nextP capture_span.2
          | none => cfg.h.nextP capture_span.2
        .cont (BE_tail cfg { st₁ with current := current₂ } apply_local)
      else
        .cont (BE_tail cfg { st₁ with current := capture_span.2 } apply_local)
    | none =>
      -- lines 540-548: nothing matched; warn on a non-blank line and skip it
      let line := cfg.h.readLine st.current
      let warns₂ := if pyTruthy line && !pyIsSpace line then st.warns + 1 else st.warns
      let current₂ := cfg.h.nextP (st.current.1, cfg.h.lineLengths st.current.1)
      .cont (BE_tail cfg { st with current := current₂, warns := warns₂,
                                   lastEndElems := endElems } apply_local)

/-- How the loop ended: a `break` with its live values, or exhaustion of
the `while current <= boundary` condition (the `while ... else` clause of
lines 557-560). -/
inductive BEExit where
  | closed (closing : POS) (endSpan : POS × POS) (endElems mid : List Elem) (warns : Nat)
  | exhausted (endElems mid : List Elem) (warns : Nat)

/-- `mid_elements` at loop end. -/
def BEExit.midEls : BEExit → List Elem
  | .closed _ _ _ mid _ => mid
  | .exhausted _ mid _ => mid

/-- `end_elements` at loop end. -/
def BEExit.endEls : BEExit → List Elem
  | .closed _ _ ee _ _ => ee
  | .exhausted ee _ _ => ee

/-- Warnings emitted by the loop. -/
def BEExit.warnsN : BEExit → Nat
  | .closed _ _ _ _ w => w
  | .exhausted _ _ w => w

/-- The `closing` position and the final `end_span` (lines 557-560): a
break keeps its values; exhaustion closes at the boundary with
`end_span = (None, boundary)`. -/
def BE_exitClose (cfg : BECfg) : BEExit → POS × (Option POS × POS)
  | .closed closing endSpan _ _ _ => (closing, (some endSpan.1, endSpan.2))
  | .exhausted _ _ _ => (cfg.boundary, (none, cfg.boundary))

/-- The arbitration loop with fuel (`none` = still running; the Python
loop has no global bound). -/
def BE_loop (cfg : BECfg) : Nat → BEState → Option BEExit
  | 0, _ => none
  | fuel + 1, st =>
    if posLe st.current cfg.boundary then
      match BE_step cfg st with
      | .brk closing endSpan endElems mid warns =>
        some (.closed closing endSpan endElems mid warns)
      | .cont st₂ => BE_loop cfg fuel st₂
    else some (.exhausted st.lastEndElems st.mid st.warns)

/-- Output element construction (lines 562-581). -/
def BE_elements (cfg : BECfg) (begin_span : POS × POS) (begin_elements : List Elem)
    (closing : POS) (mid_elements end_elements : List Elem) : List Elem :=
  let start := if cfg.between_content then begin_span.2 else begin_span.1
  let content := cfg.h.readPos start closing
  if optTruthy cfg.token then
    [Elem.block (cfg.token.getD "") content (cfg.h.rangeP start closing)
      mid_elements begin_elements end_elements]
  else
    begin_elements ++ mid_elements ++ end_elements

/-- Overall result of `BeginEndParser._parse`, with the warning count as a
ghost field. -/
structure BEResult where
  parsed : Bool
  elements : List Elem
  span : Option (POS × POS)
  warns : Nat

/-- `BeginEndParser._parse` (lines 352-583): match the begin regex, run the
arbitration loop from `begin_span[1]`, then build the elements; the
returned span is `(begin_span[0], end_span[1])` (line 583). -/
def BeginEndParser_parse (cfg : BECfg) (starting : POS) (allow_leading_all : Bool)
    (fuel : Nat) : Option BEResult :=
  match cfg.searchBegin starting allow_leading_all with
  | none => some ⟨false, [], none, 0⟩
  | some (begin_span, begin_elements) =>
    let st₀ : BEState :=
      ⟨begin_span.2, [], cfg.patterns.filter (fun p => !p.disabled), true, [], 0⟩
    match BE_loop cfg fuel st₀ with
    | none => none
    | some ex =>
      let close := BE_exitClose cfg ex
      some ⟨true, BE_elements cfg begin_span begin_elements close.1 ex.midEls ex.endEls,
        some (begin_span.1, close.2.2), ex.warnsN⟩

/-! ### Include resolution (`GrammarParser._find_include`, parser.py
lines 56-66) -/

/-- The language object as seen by `_find_include`: the root parser's
identity, the `repository` mapping, and `_find_include_scopes`
(`language.py` is not in `src/`; per the spec, scope lookups consult
externally registered grammars and are allowed to fail). -/
structure Language where
  rootId : Nat
  repository : List (String × Nat)
  scopes : String → Option Nat

/-- What `_find_include` produces: the `IncludedParserNotFound` raise of
line 59, a parser, or Python `None` (the `.get(key[1:], None)` default of
line 64). -/
inductive FindIncludeResult where
  | raised
  | found (pid : Nat)
  | noneFound
deriving DecidableEq

/-- Python `key[0] == "#"` (include keys are non-empty). -/
def headIsHash (key : String) : Bool :=
  key.toList.head? == some '#'

/-- Python `key[1:]`. -/
def strTail (key : String) : String :=
  String.mk (key.toList.drop 1)

/-- `GrammarParser._find_include` (lines 56-66). -/
def find_include (language : Option Language) (key : String) : FindIncludeResult :=
  match language with
  | none => .raised
  | some lang =>
    if key == "$self" || key == "$base" then .found lang.rootId
    else if headIsHash key then
      match lang.repository.lookup (strTail key) with
      | some pid => .found pid
      | none => .noneFound
    else
      match lang.scopes key with
      | some pid => .found pid
      | none => .noneFound

/-! ### Repository initialization (`initialize_repository`, parser.py
lines 164-172 and 223-236)

Parsers live in a store keyed by object identity, so that the in-place
mutation of `self.patterns` is explicit.  Node kinds cover the parsers the
splicing logic distinguishes: `patterns` (spliced when `type(parser) ==
PatternsParser`), `matchK` (`MatchParser`, whose `initialize_repository`
resolves its captures map), and `token` (leaf parsers, initialized at
construction).  `BeginEndParser.initialize_repository` runs the same
`PatternsParser` body via `super()` and additionally resolves its
begin/end capture maps; it is never spliced (`type` is compared exactly)
and is not needed by the claims below. -/

/-- A slot in a pattern list or captures map: a resolved parser reference
or a still-unresolved include string. -/
inductive PRef where
  | parser (pid : Nat)
  | incl (key : String)
deriving DecidableEq

/-- Node kinds distinguished by initialization. -/
inductive PKind where
  | patterns
  | matchK
  | token
deriving DecidableEq

/-- One parser object. -/
structure PNode where
  kind : PKind
  initialized : Bool
  pats : List PRef
  capParsers : List (Nat × PRef)
deriving DecidableEq

/-- The parser store plus the language data consulted by
`_find_include`. -/
structure Store where
  nodes : List (Nat × PNode)
  repository : List (String × Nat)
  rootId : Nat
deriving DecidableEq

/-- Look up a parser object by identity. -/
def lookupNode (st : Store) (pid : Nat) : Option PNode :=
  st.nodes.lookup pid

/-- Replace the first store entry for `pid` (object mutation). -/
def replaceEntry : List (Nat × PNode) → Nat → PNode → List (Nat × PNode)
  | [], _, _ => []
  | (k, v) :: rest, pid, n =>
    if k == pid then (k, n) :: rest else (k, v) :: replaceEntry rest pid n

/-- Mutate the node stored for `pid`. -/
def setNode (st : Store) (pid : Nat) (n : PNode) : Store :=
  { st with nodes := replaceEntry st.nodes pid n }

/-- `_find_include` as called during initialization (the language is
present; scope lookups resolve nothing in this model). -/
def storeFindInclude (st : Store) (key : String) : Option Nat :=
  match find_include (some ⟨st.rootId, st.repository, fun _ => none⟩) key with
  | .found pid => some pid
  | _ => none

/-- Resolve one slot: `parser if isinstance(parser, GrammarParser) else
self._find_include(parser)` (line 227).  A missing include resolves to
Python `None`, which the subsequent `parser.initialized` access crashes
on; the crash is modelled as `none`. -/
def resolveRef (st : Store) (r : PRef) : Option PRef :=
  match r with
  | .parser pid => some (.parser pid)
  | .incl key => (storeFindInclude st key).map .parser

/-- Resolve a whole pattern list (line 226-228); any missing include
crashes the call. -/
def resolveRefs (st : Store) : List PRef → Option (List PRef)
  | [] => some []
  | r :: rest =>
    match resolveRef st r, resolveRefs st rest with
    | some r₂, some rest₂ => some (r₂ :: rest₂)
    | _, _ => none

/-- Resolve a captures map (lines 167-169). -/
def resolvePairs (st : Store) : List (Nat × PRef) → Option (List (Nat × PRef))
  | [] => some []
  | (k, r) :: rest =>
    match resolveRef st r, resolvePairs st rest with
    | some r₂, some rest₂ => some ((k, r₂) :: rest₂)
    | _, _ => none

/-- `self.patterns[parser_index : parser_index + 1] = parser.patterns`
after `parser_index = self.patterns.index(parser)` (lines 235-236):
replace the first occurrence of `target` by `replacement`. -/
def spliceOne (pats : List PRef) (target : PRef) (replacement : List PRef) : List PRef :=
  match pats with
  | [] => []
  | r :: rest =>
    if r == target then replacement ++ rest
    else r :: spliceOne rest target replacement

/-- The ids in a resolved list whose node is exactly a `PatternsParser`
(`pattern_parsers`, line 233). -/
def patternKindIds (st : Store) : List PRef → List Nat
  | [] => []
  | .incl _ :: rest => patternKindIds st rest
  | .parser q :: rest =>
    match lookupNode st q with
    | some m =>
      if m.kind == PKind.patterns then q :: patternKindIds st rest
      else patternKindIds st rest
    | none => patternKindIds st rest

/-- Current pattern list of a stored parser. -/
def patsOf (st : Store) (pid : Nat) : List PRef :=
  ((lookupNode st pid).map PNode.pats).getD []

/-- The splicing loop of lines 234-236.  When the spliced parser is the
running one itself, `parser.patterns` is the live list being mutated. -/
def spliceAll (st : Store) (pid : Nat) (snapshot : List Nat) (pats : List PRef) : List PRef :=
  snapshot.foldl
    (fun acc q => spliceOne acc (PRef.parser q) (if q == pid then acc else patsOf st q))
    pats

/-- `for parser in children: if not parser.initialized:
parser.initialize_repository()` (lines 229-231), threading the store. -/
def initChildren (recur : Store → Nat → Option Store) (st : Store) :
    List PRef → Option Store
  | [] => some st
  | .incl _ :: _ => none
  | .parser q :: rest =>
    match lookupNode st q with
    | none => none
    | some m =>
      if m.initialized then initChildren recur st rest
      else
        match recur st q with
        | none => none
        | some st₂ => initChildren recur st₂ rest

/-- `initialize_repository` on one parser, by kind:
`PatternsParser.initialize_repository` (lines 223-236),
`MatchParser.initialize_repository` (lines 164-172), and the base-class
no-op for leaf parsers (lines 68-70).  `fuel` bounds the recursion depth
(in Python it is bounded by the `initialized` guard). -/
def initRepo : Nat → Store → Nat → Option Store
  | 0, _, _ => none
  | fuel + 1, st, pid =>
    match lookupNode st pid with
    | none => none
    | some node =>
      match node.kind with
      | .token => some st
      | .matchK =>
        let st₁ := setNode st pid { node with initialized := true }
        match resolvePairs st₁ node.capParsers with
        | none => none
        | some resolved =>
          let st₂ := setNode st₁ pid { node with initialized := true, capParsers := resolved }
          initChildren (initRepo fuel) st₂ (resolved.map Prod.snd)
      | .patterns =>
        let st₁ := setNode st pid { node with initialized := true }
        match resolveRefs st₁ node.pats with
        | none => none
        | some resolved =>
          let st₂ := setNode st₁ pid { node with initialized := true, pats := resolved }
          match initChildren (initRepo fuel) st₂ resolved with
          | none => none
          | some st₃ =>
            match lookupNode st₃ pid with
            | none => none
            | some node₃ =>
              let snapshot := patternKindIds st₃ node₃.pats
              let newPats := spliceAll st₃ pid snapshot node₃.pats
              some (setNode st₃ pid { node₃ with pats := newPats })

/-! ## Theorems about the claims -/

/-! ### Include resolution on a missing repository name -/

/-- A language with an empty repository. -/
def c3lang : Language := ⟨0, [], fun _ => none⟩

/-- C3: resolving the include `#missing` against an empty repository.  The
claim says `IncludedParserNotFound` is raised eagerly; the code's
`self.language.repository.get(key[1:], None)` (line 64) instead returns
Python `None`, so the include is resolved to nothing and no exception of
that kind is raised. -/
theorem find_include_missing_returns_none :
    find_include (some c3lang) "#missing" = FindIncludeResult.noneFound ∧
    FindIncludeResult.noneFound ≠ FindIncludeResult.raised :=
  ⟨rfl, by decide⟩

/-! ### TokenParser -/

/-- A two-line buffer for the token parser. -/
def c7cfg : TokenCfg := ⟨"tok", mkLines ["abc", "de"]⟩

/-- C7: `TokenParser._parse` at `starting=(0,1)`, `boundary=(1,2)` returns
one element of the parser's token with the verbatim buffer text and
`handler.range(starting, boundary)` — but line 142 assigns
`handler.anchor = boundary[1]`, the bare column `2`, not the POS `(1,2)`
that the handler contract (spec section 4.1) declares. -/
theorem tokenParser_anchor_column_assignment :
    TokenParser_parse c7cfg (0, 1) (1, 2) =
      (true, [Elem.content "tok" "bc\nde" [(0, 1), (1, 2)] []], ((0, 1), (1, 2)),
        PyAnchor.int 2) ∧
    PyAnchor.int 2 ≠ PyAnchor.pos (1, 2) :=
  ⟨rfl, by decide⟩

/-! ### MatchParser -/

/-- C8: `MatchParser._parse` returns `(false, [], none)` exactly when the
search finds nothing; on a match it returns the span, and wraps the capture
children in a single element carrying the parser's token and the matched
text when the token is non-empty, else returns the children directly. -/
theorem matchParser_parse_spec (cfg : MatchCfg) (starting : POS) (boundary : Option POS)
    (allow_leading_all : Bool) :
    (cfg.search starting boundary allow_leading_all = none →
      MatchParser_parse cfg starting boundary allow_leading_all = (false, [], none)) ∧
    (∀ span content captures,
      cfg.search starting boundary allow_leading_all = some (span, content, captures) →
      MatchParser_parse cfg starting boundary allow_leading_all =
        (true,
         if pyTruthy cfg.token then
           [Elem.content cfg.token content (cfg.h.rangeP span.1 span.2) captures]
         else captures,
         some span)) := by
  constructor
  · intro h
    simp [MatchParser_parse, h]
  · intro span content captures h
    simp only [MatchParser_parse, h]
    split <;> rfl

/-- A match configuration whose regex never matches. -/
def c8noMatch : MatchCfg := ⟨"m", mkLines ["x"], fun _ _ _ => none⟩

/-- A match configuration matching `"x"` at the origin, with a token. -/
def c8hit : MatchCfg :=
  ⟨"m", mkLines ["x"], fun s _ _ =>
    if s == ((0, 0) : POS) then some (((0, 0), (0, 1)), "x", []) else none⟩

/-- The same match with an empty token: the element is transparent. -/
def c8transparent : MatchCfg :=
  ⟨"", mkLines ["x"], fun s _ _ =>
    if s == ((0, 0) : POS) then
      some (((0, 0), (0, 1)), "x", [Elem.content "c" "x" [] []])
    else none⟩

/-- Witness for C8 on concrete configurations. -/
theorem matchParser_parse_spec_witness :
    MatchParser_parse c8noMatch (0, 0) none false = (false, [], none) ∧
    MatchParser_parse c8hit (0, 0) none false =
      (true, [Elem.content "m" "x" [(0, 0), (0, 1)] []], some ((0, 0), (0, 1))) ∧
    MatchParser_parse c8transparent (0, 0) none false =
      (true, [Elem.content "c" "x" [] []], some ((0, 0), (0, 1))) := by
  refine ⟨(matchParser_parse_spec c8noMatch (0, 0) none false).1 rfl, ?_, ?_⟩
  · exact ((matchParser_parse_spec c8hit (0, 0) none false).2
      ((0, 0), (0, 1)) "x" [] rfl).trans rfl
  · exact ((matchParser_parse_spec c8transparent (0, 0) none false).2
      ((0, 0), (0, 1)) "x" [Elem.content "c" "x" [] []] rfl).trans rfl

/-! ### PatternsParser: the candidate search set -/

/-- An enabled own pattern. -/
def c6a : PParser := ⟨0, false, false, false, fun _ _ => none⟩

/-- An injected pattern. -/
def c6b : PParser := ⟨1, false, false, false, fun _ _ => none⟩

/-- One own pattern, one injected pattern. -/
def c6cfg : PatternsCfg := ⟨[c6a], [c6b]⟩

/-- C6 counterexample: with `find_one=true` and `injections=false` the
search set still contains the injected pattern (line 257 tests
`find_one or injections`), so it is not exactly the parser's own
non-disabled patterns. -/
theorem patterns_searchSet_injected_counterexample :
    (PatternsParser_searchSet c6cfg true false).map PParser.pid = [0, 1] ∧
    (c6cfg.patterns.filter (fun p => !p.disabled)).map PParser.pid = [0] ∧
    ([0, 1] : List Nat) ≠ [0] :=
  ⟨rfl, rfl, by decide⟩

/-- C6 amended: the injected patterns are included exactly when
`find_one or injections`; otherwise the search set is the parser's own
non-disabled patterns. -/
theorem patterns_searchSet_characterization (cfg : PatternsCfg) (find_one injections : Bool) :
    PatternsParser_searchSet cfg find_one injections =
      cfg.patterns.filter (fun p => !p.disabled) ++
        (if find_one || injections then cfg.injected else []) := by
  unfold PatternsParser_searchSet
  cases find_one <;> cases injections <;> simp

/-! ### PatternsParser: the progress-stall guard -/

/-- A pattern that consumes one character at the origin and then matches an
empty span at `(0,1)` forever. -/
def c4stall : PParser :=
  ⟨0, false, false, false, fun cur _ =>
    if cur == ((0, 0) : POS) then some ([Elem.content "x" "a" [] []], ((0, 0), (0, 1)))
    else if cur == ((0, 1) : POS) then some ([], ((0, 1), (0, 1)))
    else none⟩

/-- C4 counterexample: after consuming one character, every pass matches an
empty span at `(0,1)`; the pass completes with no cursor movement, yet the
parser runs another pass (the guard of line 300 compares against
`starting = (0,0)`, not against the pass's own start), and the loop is
still running after 50 rounds. -/
theorem patterns_loop_stall_counterexample :
    PatternsParser_loop [c4stall] false false (0, 0) (0, 2) 50 (0, 0) [] 0 = none ∧
    PatternsParser_step [c4stall] false false (0, 0) (0, 1) [Elem.content "x" "a" [] []] =
      .cont (0, 1) [Elem.content "x" "a" [] []] :=
  ⟨rfl, rfl⟩

/-- C4 amended: the stall guard triggers only at the loop's overall
starting position: a pass (either whitespace phase) whose successful match
ends exactly at `starting` warns and terminates the scope. -/
theorem patterns_stall_guard_at_starting (patterns : List PParser)
    (allow_leading_all : Bool) (starting current : POS) (elements captures : List Elem)
    (q : PParser) (span : POS × POS)
    (hfound : firstSuccess patterns current allow_leading_all = some (q, captures, span) ∨
      (firstSuccess patterns current allow_leading_all = none ∧ allow_leading_all = false ∧
        firstSuccess patterns current true = some (q, captures, span)))
    (hstall : span.2 = starting) :
    PatternsParser_step patterns false allow_leading_all starting current elements =
      .brk starting (elements ++ captures) true := by
  rcases hfound with h | ⟨h1, h2, h3⟩
  · simp [PatternsParser_step, h, hstall]
  · subst h2
    simp [PatternsParser_step, h1, h3, hstall]

/-- A pattern matching an empty span exactly at `(0,3)`. -/
def c4wp : PParser :=
  ⟨0, false, false, false, fun cur _ =>
    if cur == ((0, 3) : POS) then some ([], ((0, 3), (0, 3))) else none⟩

/-- Witness: a pass starting at the loop's starting position `(0,3)` that
matches an empty span there warns and terminates. -/
theorem patterns_stall_guard_at_starting_witness :
    PatternsParser_step [c4wp] false false (0, 3) (0, 3) [] = .brk (0, 3) [] true := by
  have h := patterns_stall_guard_at_starting [c4wp] false (0, 3) (0, 3) [] [] c4wp
    ((0, 3), (0, 3)) (Or.inl rfl) rfl
  simpa using h

/-! ### BeginEndParser: anchored patterns are dropped after the first
round -/

/-- After the post-iteration tail, `first_run` is always off. -/
theorem BE_tail_first_run (cfg : BECfg) (s : BEState) (apply_local : Bool) :
    (BE_tail cfg s apply_local).first_run = false := by
  unfold BE_tail
  cases apply_local <;> cases hfr : s.first_run <;> simp [hfr]

/-- The tail filters the anchored patterns out exactly on the first
round. -/
theorem BE_tail_pats (cfg : BECfg) (s : BEState) (apply_local : Bool) :
    (BE_tail cfg s apply_local).pats =
      (if s.first_run then s.pats.filter (fun p => !p.anchored) else s.pats) := by
  unfold BE_tail
  cases apply_local <;> cases hfr : s.first_run <;> simp [hfr]

/-- C9: whenever an arbitration-loop iteration continues, the next state
has `first_run` off and its candidate list is the previous one with every
`anchored` pattern removed on the first round, and unchanged on every
later round — so a `\G`-anchored child is dropped after the first
iteration and never attempted again. -/
theorem beginEnd_anchored_dropped_after_first_run (cfg : BECfg) (st st' : BEState)
    (h : BE_step cfg st = BEStep.cont st') :
    st'.first_run = false ∧
    st'.pats = (if st.first_run then st.pats.filter (fun p => !p.anchored) else st.pats) := by
  unfold BE_step at h
  rcases hsc : BE_scan cfg st.pats st.current with ⟨found, endRes⟩
  rw [hsc] at h
  dsimp only at h
  rcases endRes with _ | ⟨es, ee⟩ <;> rcases found with _ | ⟨p, ce, cs⟩ <;> dsimp only at h
  all_goals
    repeat' split at h
  all_goals
    first
      | exact BEStep.noConfusion h
      | (injection h with h2
         subst h2
         exact ⟨BE_tail_first_run .., BE_tail_pats ..⟩)

/-- An anchored child pattern (its source contains `\G`). -/
def c9anch : PParser := ⟨0, false, true, false, fun _ _ => none⟩

/-- A plain child pattern. -/
def c9plain : PParser := ⟨1, false, false, false, fun _ _ => none⟩

/-- A begin/end configuration with one anchored and one plain child. -/
def c9cfg : BECfg :=
  ⟨some "t", false, false, [c9anch, c9plain], fun _ _ => none, fun _ _ => none,
    (0, 5), mkLines ["ab"]⟩

/-- First-round state with both children as candidates. -/
def c9st : BEState := ⟨(0, 0), [], [c9anch, c9plain], true, [], 0⟩

/-- The state after the first iteration: the anchored child is gone. -/
def c9stAfter : BEState := ⟨(1, 0), [], [c9plain], false, [], 1⟩

/-- Witness for C9: on a concrete first iteration the anchored child is
removed from the candidate list. -/
theorem beginEnd_anchored_dropped_witness :
    c9stAfter.first_run = false ∧
    c9stAfter.pats =
      (if c9st.first_run then c9st.pats.filter (fun p => !p.anchored) else c9st.pats) :=
  beginEnd_anchored_dropped_after_first_run c9cfg c9st c9stAfter rfl

/-! ### BeginEndParser: arbitration between an inner capture and an end
match ending at the same position -/

/-- C1 amended: in an iteration where both an inner capture and an end
match were found, with `pattern_at_end` as in the claim and
`end_span.start <= capture_span.start` or an empty end span: an empty end
span appends the capture and closes at the end span; else if neither the
grammar's `applyEndPatternLast` nor the iteration-local self-recursion
flag is set, the block closes at the end span discarding the capture; else
the capture is appended and the loop continues — from
`next(capture_span.end)` when the iteration-local flag is set (line 550),
and from `capture_span.end` otherwise. -/
theorem beginEnd_capture_end_arbitration (cfg : BECfg) (st : BEState) (p : PParser)
    (ce : List Elem) (cs es : POS × POS) (ee : List Elem)
    (hscan : BE_scan cfg st.pats st.current = (some (p, ce, cs), some (es, ee)))
    (hpae : (if cfg.h.readLength1 (cfg.h.prevP cs.2) == "\n" then
        es.2 == cfg.h.prevP cs.2 || es.2 == cs.2
      else es.2 == cs.2) = true)
    (hcond : (posLe es.1 cs.1 || es.2 == es.1) = true) :
    BE_step cfg st =
      (if es.2 == es.1 then
        BEStep.brk (if cfg.between_content then es.1 else es.2) es ee
          (st.mid ++ ce) st.warns
      else if !cfg.apply_end_pattern_last && !p.isSelf then
        BEStep.brk (if cfg.between_content then es.1 else es.2) es ee st.mid st.warns
      else
        BEStep.cont (BE_tail cfg
          { st with mid := st.mid ++ ce, current := cs.2, lastEndElems := ee } p.isSelf)) ∧
    (BE_tail cfg { st with mid := st.mid ++ ce, current := cs.2, lastEndElems := ee }
        p.isSelf).current =
      (if p.isSelf then cfg.h.nextP cs.2 else cs.2) := by
  constructor
  · unfold BE_step
    rw [hscan]
    dsimp only
    rw [hpae, hcond]
    simp only [Bool.true_and, Bool.or_true, if_true]
  · unfold BE_tail
    cases hp : p.isSelf <;> cases hfr : st.first_run <;> simp [hp, hfr]

/-- A self-recursive child pattern matching `[0,0)..(0,2)`. -/
def cxp : PParser :=
  ⟨0, false, false, true, fun cur _ =>
    if cur == ((0, 0) : POS) then some ([], ((0, 0), (0, 2))) else none⟩

/-- Configuration where the end match and the self-recursive capture end
at the same position and the grammar flag is off. -/
def cxcfg : BECfg :=
  ⟨some "t", false, false, [cxp], fun _ _ => none,
    fun cur _ => if cur == ((0, 0) : POS) then some (((0, 0), (0, 2)), []) else none,
    (0, 2), mkLines ["ab"]⟩

/-- The iteration state. -/
def cxst : BEState := ⟨(0, 0), [], [cxp], true, [], 0⟩

/-- The state the iteration continues with. -/
def cxAfter : BEState := ⟨(1, 0), [], [cxp], false, [], 0⟩

/-- C1 counterexample: with the iteration-local self-recursion flag set
(and the grammar flag unset), the capture is appended but the loop
continues from `next(capture_span.end) = (1,0)`, not from
`capture_span.end = (0,2)` as the claim states. -/
theorem beginEnd_arbitration_local_flag_counterexample :
    cxcfg.apply_end_pattern_last = false ∧
    cxp.isSelf = true ∧
    BE_scan cxcfg cxst.pats cxst.current =
      (some (cxp, [], ((0, 0), (0, 2))), some (((0, 0), (0, 2)), [])) ∧
    BE_step cxcfg cxst = BEStep.cont cxAfter ∧
    cxAfter.current = (1, 0) ∧
    ((1, 0) : POS) ≠ (0, 2) :=
  ⟨rfl, rfl, rfl, rfl, rfl, by decide⟩

/-- A non-self child pattern matching `(0,0)..(0,2)`. -/
def cwp : PParser :=
  ⟨0, false, false, false, fun cur _ =>
    if cur == ((0, 0) : POS) then some ([], ((0, 0), (0, 2))) else none⟩

/-- Configuration with the grammar-level `applyEndPatternLast` flag set. -/
def cwcfg : BECfg :=
  ⟨some "t", false, true, [cwp], fun _ _ => none,
    fun cur _ => if cur == ((0, 0) : POS) then some (((0, 0), (0, 2)), []) else none,
    (0, 2), mkLines ["ab"]⟩

/-- The iteration state. -/
def cwst : BEState := ⟨(0, 0), [], [cwp], true, [], 0⟩

/-- The state the iteration continues with. -/
def cwAfter : BEState := ⟨(0, 2), [], [cwp], false, [], 0⟩

/-- Witness for the amended C1: with the grammar flag set and no
self-recursion, the capture is appended and the loop continues exactly
from `capture_span.end`. -/
theorem beginEnd_capture_end_arbitration_witness :
    BE_scan cwcfg cwst.pats cwst.current =
      (some (cwp, [], ((0, 0), (0, 2))), some (((0, 0), (0, 2)), [])) ∧
    BE_step cwcfg cwst = BEStep.cont cwAfter ∧
    cwAfter.current = (0, 2) := by
  have h := beginEnd_capture_end_arbitration cwcfg cwst cwp [] ((0, 0), (0, 2))
    ((0, 0), (0, 2)) [] rfl rfl rfl
  exact ⟨rfl, h.1.trans rfl, rfl⟩

/-! ### BeginEndParser: closing at the boundary without an end match -/

/-- C2 amended: when the begin pattern matched and the arbitration loop
exhausts the `while current <= boundary` condition without accepting an
end match, the parse still succeeds: the block closes exactly at the
boundary with an absent end span `(none, boundary)` and the partial block
is returned. -/
theorem beginEnd_boundary_close_block (cfg : BECfg) (starting : POS)
    (allow_leading_all : Bool) (fuel : Nat) (begin_span : POS × POS)
    (begin_elements ee mid : List Elem) (w : Nat)
    (hb : cfg.searchBegin starting allow_leading_all = some (begin_span, begin_elements))
    (hl : BE_loop cfg fuel
        ⟨begin_span.2, [], cfg.patterns.filter (fun p => !p.disabled), true, [], 0⟩ =
      some (BEExit.exhausted ee mid w)) :
    BE_exitClose cfg (BEExit.exhausted ee mid w) = (cfg.boundary, (none, cfg.boundary)) ∧
    BeginEndParser_parse cfg starting allow_leading_all fuel =
      some ⟨true, BE_elements cfg begin_span begin_elements cfg.boundary mid ee,
        some (begin_span.1, cfg.boundary), w⟩ := by
  refine ⟨rfl, ?_⟩
  unfold BeginEndParser_parse
  rw [hb]
  dsimp only
  rw [hl]
  rfl

/-- A child pattern consuming `(0,1)..(0,2)`. -/
def c2p : PParser :=
  ⟨0, false, false, false, fun cur _ =>
    if cur == ((0, 1) : POS) then some ([], ((0, 1), (0, 2))) else none⟩

/-- A begin/end configuration whose end regex never matches. -/
def c2cfg : BECfg :=
  ⟨some "tok", false, false, [c2p],
    fun cur _ => if cur == ((0, 0) : POS) then some (((0, 0), (0, 1)), []) else none,
    fun _ _ => none, (0, 2), mkLines ["ab"]⟩

/-- The loop state right after the begin match. -/
def c2st : BEState := ⟨(0, 1), [], [c2p], true, [], 0⟩

/-- C2 counterexample: a block that reaches the boundary without any end
match closes there and returns the partial block — with zero warnings
emitted (the `while ... else` clause of lines 557-560 logs nothing), while
the claim requires a warning. -/
theorem beginEnd_close_at_boundary_counterexample :
    BE_loop c2cfg 5 c2st = some (BEExit.exhausted [] [] 0) ∧
    BeginEndParser_parse c2cfg (0, 0) false 5 =
      some ⟨true, [Elem.block "tok" "ab" [(0, 0), (0, 2)] [] [] []],
        some ((0, 0), (0, 2)), 0⟩ :=
  ⟨rfl, rfl⟩

/-- Witness for the amended C2 on the concrete no-end block. -/
theorem beginEnd_boundary_close_block_witness :
    BE_exitClose c2cfg (BEExit.exhausted [] [] 0) = ((0, 2), (none, (0, 2))) ∧
    BeginEndParser_parse c2cfg (0, 0) false 5 =
      some ⟨true, BE_elements c2cfg ((0, 0), (0, 1)) [] (0, 2) [] [],
        some ((0, 0), (0, 2)), 0⟩ := by
  have h := beginEnd_boundary_close_block c2cfg (0, 0) false 5 ((0, 0), (0, 1))
    [] [] [] 0 rfl rfl
  exact ⟨h.1.trans rfl, h.2.trans rfl⟩

/-! ### BeginEndParser: the returned span covers begin through end -/

/-- C10: whenever `BeginEndParser._parse` succeeds, the span returned to
the caller is `(begin_span.start, end_span.end)` (line 583), even in
`between_content` mode, where the emitted block's content and indices run
only from the begin match's end to the closing position. -/
theorem beginEnd_return_span (cfg : BECfg) (starting : POS) (allow_leading_all : Bool)
    (fuel : Nat) (begin_span : POS × POS) (begin_elements : List Elem) (ex : BEExit)
    (hb : cfg.searchBegin starting allow_leading_all = some (begin_span, begin_elements))
    (hl : BE_loop cfg fuel
        ⟨begin_span.2, [], cfg.patterns.filter (fun p => !p.disabled), true, [], 0⟩ =
      some ex) :
    BeginEndParser_parse cfg starting allow_leading_all fuel =
      some ⟨true,
        BE_elements cfg begin_span begin_elements (BE_exitClose cfg ex).1 ex.midEls ex.endEls,
        some (begin_span.1, (BE_exitClose cfg ex).2.2), ex.warnsN⟩ ∧
    (cfg.between_content = true →
      BE_elements cfg begin_span begin_elements (BE_exitClose cfg ex).1 ex.midEls ex.endEls =
        (if optTruthy cfg.token then
          [Elem.block (cfg.token.getD "")
            (cfg.h.readPos begin_span.2 (BE_exitClose cfg ex).1)
            (cfg.h.rangeP begin_span.2 (BE_exitClose cfg ex).1)
            ex.midEls begin_elements ex.endEls]
        else begin_elements ++ ex.midEls ++ ex.endEls)) := by
  constructor
  · unfold BeginEndParser_parse
    rw [hb]
    dsimp only
    rw [hl]
  · intro hbc
    simp [BE_elements, hbc]

/-- A between-content block: begin at `(0,0)..(0,1)`, end at
`(0,1)..(0,2)`, no inner patterns. -/
def c10cfg : BECfg :=
  ⟨some "ctok", true, false, [],
    fun cur _ => if cur == ((0, 0) : POS) then some (((0, 0), (0, 1)), []) else none,
    fun cur _ => if cur == ((0, 1) : POS) then some (((0, 1), (0, 2)), []) else none,
    (0, 2), mkLines ["ab"]⟩

/-- Witness for C10: the returned span `((0,0),(0,2))` covers both
delimiters while the emitted block's indices cover only
`(0,1)..(0,1)` (begin end to closing). -/
theorem beginEnd_return_span_witness :
    BeginEndParser_parse c10cfg (0, 0) false 5 =
      some ⟨true, [Elem.block "ctok" "" [(0, 1), (0, 1)] [] [] []],
        some ((0, 0), (0, 2)), 0⟩ ∧
    BE_elements c10cfg ((0, 0), (0, 1)) [] (0, 1) [] [] =
      [Elem.block "ctok" (c10cfg.h.readPos (0, 1) (0, 1))
        (c10cfg.h.rangeP (0, 1) (0, 1)) [] [] []] := by
  have h := beginEnd_return_span c10cfg (0, 0) false 5 ((0, 0), (0, 1)) []
    (BEExit.closed (0, 1) ((0, 1), (0, 2)) [] [] 0) rfl rfl
  exact ⟨h.1.trans rfl, (h.2 rfl).trans rfl⟩

/-! ### Repository initialization: idempotence -/

/-- A pattern slot is clean when it is a resolved reference to an
initialized parser that is not exactly a `PatternsParser`. -/
def cleanRef (st : Store) (r : PRef) : Bool :=
  match r with
  | .parser q =>
    match lookupNode st q with
    | some m => m.initialized && !(m.kind == PKind.patterns)
    | none => false
  | .incl _ => false

/-- A node is clean when it is initialized and all its pattern slots
are. -/
def NodeClean (st : Store) (n : PNode) : Bool :=
  n.initialized && n.pats.all (cleanRef st)

/-- Looking up an entry and writing the same value back is a no-op. -/
theorem replaceEntry_self (l : List (Nat × PNode)) (pid : Nat) (n : PNode)
    (h : l.lookup pid = some n) : replaceEntry l pid n = l := by
  induction l with
  | nil => rfl
  | cons kv rest ih =>
    obtain ⟨k, v⟩ := kv
    by_cases hk : k = pid
    · subst hk
      simp only [List.lookup, beq_self_eq_true] at h
      simp only [Option.some.injEq] at h
      simp [replaceEntry, h]
    · have h1 : (pid == k) = false := by simpa using fun he => hk he.symm
      have h2 : (k == pid) = false := by simpa using hk
      simp only [List.lookup, h1] at h
      simp [replaceEntry, h2, ih h]

/-- Writing the stored node back is a no-op on the store. -/
theorem setNode_self (st : Store) (pid : Nat) (n : PNode)
    (h : lookupNode st pid = some n) : setNode st pid n = st := by
  unfold setNode
  rw [replaceEntry_self st.nodes pid n h]

/-- Resolution is the identity on clean (already resolved) slots. -/
theorem resolveRefs_of_clean (st : Store) (rs : List PRef)
    (h : ∀ r ∈ rs, cleanRef st r = true) : resolveRefs st rs = some rs := by
  induction rs with
  | nil => rfl
  | cons r rest ih =>
    have hr := h r (List.mem_cons_self r rest)
    have hrest := ih (fun x hx => h x (List.mem_cons_of_mem r hx))
    cases r with
    | parser q => simp [resolveRefs, resolveRef, hrest]
    | incl s => simp [cleanRef] at hr

/-- The child-initialization pass skips every initialized child. -/
theorem initChildren_of_clean (recur : Store → Nat → Option Store) (st : Store)
    (rs : List PRef) (h : ∀ r ∈ rs, cleanRef st r = true) :
    initChildren recur st rs = some st := by
  induction rs with
  | nil => rfl
  | cons r rest ih =>
    have hr := h r (List.mem_cons_self r rest)
    have hrest := ih (fun x hx => h x (List.mem_cons_of_mem r hx))
    cases r with
    | incl s => simp [cleanRef] at hr
    | parser q =>
      unfold cleanRef at hr
      dsimp only at hr
      rcases hl : lookupNode st q with _ | m
      · rw [hl] at hr; simp at hr
      · rw [hl] at hr
        simp only [Bool.and_eq_true] at hr
        simp [initChildren, hl, hr.1, hrest]

/-- No clean slot points at a `PatternsParser`, so the splicing snapshot
is empty. -/
theorem patternKindIds_of_clean (st : Store) (rs : List PRef)
    (h : ∀ r ∈ rs, cleanRef st r = true) : patternKindIds st rs = [] := by
  induction rs with
  | nil => rfl
  | cons r rest ih =>
    have hr := h r (List.mem_cons_self r rest)
    have hrest := ih (fun x hx => h x (List.mem_cons_of_mem r hx))
    cases r with
    | incl s => simp [cleanRef] at hr
    | parser q =>
      unfold cleanRef at hr
      dsimp only at hr
      rcases hl : lookupNode st q with _ | m
      · rw [hl] at hr; simp at hr
      · rw [hl] at hr
        simp only [Bool.and_eq_true, Bool.not_eq_true'] at hr
        simp [patternKindIds, hl, hr.2, hrest]

/-- C5 amended: `initialize_repository` is unguarded, but a repeated call
on a `PatternsParser` whose node is already initialized and whose pattern
list holds only initialized non-`PatternsParser` children (as after
initializing an acyclic patterns graph) leaves the store unchanged: the
re-resolution is the identity and the splicing pass has nothing to
splice. -/
theorem initRepo_second_call_noop (st : Store) (pid : Nat) (n : PNode)
    (fuel : Nat) (hn : lookupNode st pid = some n) (hk : n.kind = PKind.patterns)
    (hclean : NodeClean st n = true) : initRepo (fuel + 1) st pid = some st := by
  have hparts : n.initialized = true ∧ n.pats.all (cleanRef st) = true := by
    simpa [NodeClean] using hclean
  have hinit : n.initialized = true := hparts.1
  have hall : ∀ r ∈ n.pats, cleanRef st r = true := by
    simpa [List.all_eq_true] using hparts.2
  have hrec : PNode.mk PKind.patterns true n.pats n.capParsers = n := by
    cases n
    simp_all
  unfold initRepo
  rw [hn]
  dsimp only
  rw [hk]
  dsimp only
  rw [hrec, setNode_self st pid n hn, resolveRefs_of_clean st n.pats hall]
  dsimp only
  rw [hrec, setNode_self st pid n hn,
    initChildren_of_clean (initRepo fuel) st n.pats hall]
  dsimp only
  rw [hn]
  dsimp only
  rw [patternKindIds_of_clean st n.pats hall]
  dsimp only [spliceAll, List.foldl]
  rw [setNode_self st pid n hn]

/-- Node `A`: a patterns parser including `#b` and a leaf. -/
def c5nodeA : PNode := ⟨.patterns, false, [.incl "#b", .parser 3], []⟩

/-- Node `B`: a patterns parser including `#a` and a leaf. -/
def c5nodeB : PNode := ⟨.patterns, false, [.incl "#a", .parser 4], []⟩

/-- A leaf (token) parser, initialized at construction. -/
def c5tok : PNode := ⟨.token, true, [], []⟩

/-- Two repository entries including each other. -/
def c5store : Store :=
  ⟨[(1, c5nodeA), (2, c5nodeB), (3, c5tok), (4, c5tok)], [("a", 1), ("b", 2)], 1⟩

/-- C5 counterexample: on this cyclic store the first call leaves node
`A`'s pattern list still containing the `PatternsParser` `B` with
`B.patterns = [B, ...]`, and the second call — on a graph whose nodes are
all initialized — splices again and produces a different parser graph
here (re-splicing need not change the graph in general: a self-include
`B.patterns = [B]` re-splices to the same list). -/
theorem initRepo_not_idempotent_counterexample :
    (initRepo 10 c5store 1).bind (fun s => initRepo 10 s 1) ≠ initRepo 10 c5store 1 ∧
    (initRepo 10 c5store 1).elim false
      (fun s => s.nodes.all (fun kv => kv.2.initialized)) = true := by
  constructor <;> decide

/-- A leaf child for the flat store. -/
def c5flatChild : PNode := ⟨.token, true, [], []⟩

/-- A flat, fully initialized patterns root. -/
def c5flatRoot : PNode := ⟨.patterns, true, [.parser 2], []⟩

/-- The flat store. -/
def c5flat : Store := ⟨[(1, c5flatRoot), (2, c5flatChild)], [], 1⟩

/-- Witness: a second `initialize_repository` on the flat initialized
store is a no-op. -/
theorem initRepo_second_call_noop_witness :
    NodeClean c5flat c5flatRoot = true ∧ initRepo 1 c5flat 1 = some c5flat :=
  ⟨by decide,
    initRepo_second_call_noop c5flat 1 c5flatRoot 0 rfl rfl (by decide)⟩

end TMG
